import Mathlib

/-!
Verification of the novata-excel-processor repository.

This file gives a shallow embedding, in Lean 4, of the two domain components
of the repository:

* `src/utils/data_processor.py` — the ESG classifier (`ESGDataProcessor`):
  keyword categorization, numeric-value parsing, and the three extraction
  passes (tables, key-value pairs, free text) plus summary statistics.
* `src/utils/document_analyzer.py` — the extraction adapter
  (`DocumentAnalyzerImproved`): file validation, the retry decorator, and
  normalization of the external service result (`_structure_results`).

Python strings are modelled as `String`/`List Char`; Python floats as `ℚ`
(every numeric literal and every arithmetic operation appearing in this code
is exact on the rationals); Python dictionaries with insertion-order
semantics as association lists with insert-in-place update. Regular
expressions are embedded by hand for the three concrete patterns the source
compiles, reproducing leftmost search and greedy/backtracking semantics for
exactly those patterns. Wall-clock values (`datetime.utcnow`, `time.time`)
are not part of the pure model: the report timestamp is passed in as an
argument, and the adapter timestamp is dropped.
-/

namespace NovataExcel

/-! ### Character classes (Python `re` classes, ASCII fragment)

The source feeds only text to these patterns; the embedding models the ASCII
fragment of the Python character classes, which covers every input in this
development. -/

/-- Python regex class `\s` (ASCII fragment): space, tab, newline, carriage
return, vertical tab, form feed. Also used for `str.strip()`. -/
def isSpaceChar (c : Char) : Bool :=
  c = ' ' || c = '\t' || c = '\n' || c = '\r' || c = '\x0b' || c = '\x0c'

/-- Python regex class `\w` (ASCII fragment): letters, digits, underscore. -/
def isWordChar (c : Char) : Bool :=
  c.isAlpha || c.isDigit || c = '_'

/-- Regex class `[a-zA-Z%]` used for unit tokens in the source patterns. -/
def isUnitChar (c : Char) : Bool :=
  c.isAlpha || c = '%'

/-- Regex class `[0-9.]` used by `_parse_value`. -/
def isNumChar (c : Char) : Bool :=
  c.isDigit || c = '.'

/-- Regex class `[0-9,.\s]` used by the free-text pattern in
`_analyze_content`. -/
def isValClass (c : Char) : Bool :=
  c.isDigit || c = ',' || c = '.' || isSpaceChar c

/-- Sentence-terminating characters of the split pattern `[.!?]+` in
`_analyze_content`. -/
def isTermChar (c : Char) : Bool :=
  c = '.' || c = '!' || c = '?'

/-- Python `str.strip()`: drop whitespace from both ends. -/
def pystrip (cs : List Char) : List Char :=
  ((cs.dropWhile isSpaceChar).reverse.dropWhile isSpaceChar).reverse

/-- Lower-casing used by `str.lower()`; `Char.toLower` covers the ASCII
letters, which is the fragment exercised here. -/
def lowerChars (cs : List Char) : List Char :=
  cs.map Char.toLower

/-- Value of a list of decimal digit characters read in base 10. -/
def natOfDigits (cs : List Char) : Nat :=
  cs.foldl (fun a c => a * 10 + (c.toNat - 48)) 0

/-- Python `float()` restricted to the strings reachable in this code:
strings whose characters the regexes limit to digits, periods,
and (in the free-text pass) leftover whitespace. `float` accepts such a
string exactly when it consists of digits and at most one period, with at
least one digit (so `"1."`, `".5"`, `"12"` parse; `""`, `"."`, `"1.2.3"`
and anything containing internal whitespace raise `ValueError`). Signs,
exponents, underscores, `inf`/`nan` cannot occur: the regex classes exclude
those characters. The value `intpart.fracpart` is the exact rational
`(intpart * 10 ^ k + fracpart) / 10 ^ k` where `k` is the number of
fraction digits, built with `Rat.divInt` (the kernel-reducible constructor;
the library field operations on `ℚ` are deliberately irreducible). -/
def pyFloat? (cs : List Char) : Option ℚ :=
  if cs.all (fun c => c.isDigit || c = '.') ∧ cs.count '.' ≤ 1 ∧ cs.any (fun c => c.isDigit) then
    some (Rat.divInt
      (natOfDigits (cs.takeWhile (fun c => c ≠ '.')) *
          10 ^ ((cs.drop (cs.takeWhile (fun c => c ≠ '.')).length).drop 1).length +
        natOfDigits ((cs.drop (cs.takeWhile (fun c => c ≠ '.')).length).drop 1))
      (10 ^ ((cs.drop (cs.takeWhile (fun c => c ≠ '.')).length).drop 1).length))
  else none

/-! ### Word-boundary keyword matching

`ESGDataProcessor._compile_patterns` compiles, for each keyword, the pattern
`\b{keyword}\b` with `re.IGNORECASE`, and `_categorize_text` runs
`pattern.search` on the lower-cased text. Every keyword is a lower-case
string beginning and ending in a word character, so `pattern.search`
succeeds exactly when the keyword occurs in the lower-cased text at some
position whose left neighbour (if any) and right neighbour (if any) are
non-word characters. `wholeWord` decides that. -/

/-- Left word boundary `\b` holds at the match position: start of text or a
non-word character before it. -/
def boundaryOk : Option Char → Bool
  | none => true
  | some c => !(isWordChar c)

/-- Right word boundary `\b` holds after the match: end of text or a non-word
character after it. -/
def afterOk : List Char → Bool
  | [] => true
  | c :: _ => !(isWordChar c)

/-- Scan for an occurrence of `kw` with word boundaries; `prev` is the
character just before the current position, if any. -/
def wholeWordAux (kw : List Char) : Option Char → List Char → Bool
  | prev, [] => boundaryOk prev && kw.isPrefixOf [] && afterOk []
  | prev, c :: rest =>
      (boundaryOk prev && kw.isPrefixOf (c :: rest) && afterOk ((c :: rest).drop kw.length)) ||
      wholeWordAux kw (some c) rest

/-- Search (`re.search`) for `\b{kw}\b` in `text` (both already lower-case). -/
def wholeWord (kw text : List Char) : Bool :=
  wholeWordAux kw none text

/-! ### `ESGDataProcessor.ESG_KEYWORDS` and `_categorize_text` -/

def environmentalKeywords : List String :=
  ["carbon", "co2", "emission", "ghg", "greenhouse gas",
   "energy", "renewable", "waste", "water", "recycling",
   "biodiversity", "climate", "pollution", "sustainability"]

def socialKeywords : List String :=
  ["employee", "diversity", "inclusion", "safety", "health",
   "community", "human rights", "labor", "training", "education",
   "customer satisfaction", "privacy", "data protection"]

def governanceKeywords : List String :=
  ["board", "ethics", "compliance", "risk", "audit",
   "transparency", "corruption", "policy", "management",
   "shareholder", "stakeholder", "executive compensation"]

/-- The class attribute `ESG_KEYWORDS`, in the dictionary insertion order
the source writes it (environmental, social, governance). -/
def ESG_KEYWORDS : List (String × List String) :=
  [("environmental", environmentalKeywords),
   ("social", socialKeywords),
   ("governance", governanceKeywords)]

/-- All (category, keyword) pairs of `ESG_KEYWORDS`, flattened in
enumeration order. -/
def keywordPairs : List (String × String) :=
  ESG_KEYWORDS.flatMap (fun p => p.2.map (fun kw => (p.1, kw)))

/-- Body of `_categorize_text` after lower-casing: for each category in
enumeration order, return it if some keyword pattern matches. -/
def categorizeChars (cs : List Char) : Option String :=
  ESG_KEYWORDS.findSome? (fun p =>
    if p.2.any (fun kw => wholeWord kw.data cs) then some p.1 else none)

/-- Embedding of `ESGDataProcessor._categorize_text`: empty (falsy) text yields `None`;
otherwise the text is lower-cased and the compiled `\b{keyword}\b` patterns
are searched, category by category. -/
def _categorize_text (text : String) : Option String :=
  if text.data = [] then none
  else categorizeChars (lowerChars text.data)

/-! ### `ESGDataProcessor._parse_value` -/

/-- Unit normalization `match.group(2) or None`: an empty unit token becomes `None`. -/
def toUnit (l : List Char) : Option String :=
  if l = [] then none else some (String.mk l)

/-- Body of `_parse_value` after stripping and comma removal: the regex
`([0-9.]+)\s*([a-zA-Z%]*)` anchored at the start (`re.match`). The leading
group takes the maximal run of `[0-9.]`; an empty run means no regex match.
`float` failure on the captured run (possible, e.g. for `"..."`) and regex
failure both yield `None`, here merged through `pyFloat?` which rejects the
empty run as well. -/
def parseCleaned (cs : List Char) : Option (ℚ × Option String) :=
  match pyFloat? (cs.takeWhile isNumChar) with
  | none => none
  | some v =>
      some (v, toUnit (((cs.drop (cs.takeWhile isNumChar).length).dropWhile isSpaceChar).takeWhile isUnitChar))

/-- Embedding of `ESGDataProcessor._parse_value`: falsy input yields `None`; otherwise
strip whitespace, remove commas, and run the anchored regex. -/
def _parse_value (value_str : String) : Option (ℚ × Option String) :=
  if value_str.data = [] then none
  else parseCleaned ((pystrip value_str.data).filter (fun c => c ≠ ','))

/-! ### Data model (`src/models/esg_models.py`) -/

/-- The `ESGMetric` dataclass: category is a plain string in the source
(`"environmental"`, `"social"` or `"governance"`); `value` a float;
optional unit, year and source coordinates; confidence defaulting to 1. -/
structure ESGMetric where
  category : String
  metric_name : String
  value : ℚ
  unit : Option String := none
  year : Option Int := none
  source_table : Option Nat := none
  source_page : Option Nat := none
  confidence : ℚ := 1
  deriving Repr, DecidableEq

/-- The `metrics_by_category` dictionary of `_calculate_summary`. -/
structure MetricsByCategory where
  environmental : Nat
  social : Nat
  governance : Nat
  deriving Repr, DecidableEq

/-- Summary dictionary computed by `_calculate_summary`. -/
structure ESGSummary where
  total_metrics : Nat
  metrics_by_category : MetricsByCategory
  average_confidence : ℚ
  deriving Repr, DecidableEq

/-- The `ESGReport` dataclass. The `metadata` field is never set by the
classifier and stays `None`; it is omitted here. -/
structure ESGReport where
  filename : String
  extraction_date : String
  metrics : List ESGMetric
  summary : Option ESGSummary := none
  deriving Repr, DecidableEq

/-! ### Classifier input record

`process_esg_data` consumes a plain dictionary; key presence is tested with
`in` / `.get`, so each top-level field is modelled as an `Option`. A table
is a dictionary whose `cells` list is read with `.get("cells", [])`; each
cell is read with mandatory `["row_index"]`, `["column_index"]`,
`["content"]` accesses. -/

structure TableCell where
  row_index : Nat
  column_index : Nat
  content : String
  deriving Repr, DecidableEq

structure ClassifierTable where
  cells : List TableCell
  deriving Repr, DecidableEq

/-- A key-value pair as read by `_process_key_value_pair`, which uses
`.get("key", "")`, `.get("value", "")`, `.get("confidence", 0.5)`. -/
structure ClassifierKVP where
  key : Option String
  value : Option String
  confidence : Option ℚ
  deriving Repr, DecidableEq

/-- The extracted-data record consumed by `process_esg_data`. -/
structure ExtractedRecord where
  filename : Option String := none
  tables : Option (List ClassifierTable) := none
  key_value_pairs : Option (List ClassifierKVP) := none
  content : Option String := none
  deriving Repr, DecidableEq

/-! ### Python dictionaries with `Nat` keys

`_extract_metrics_from_table` builds `rows: Dict[int, Dict[int, str]]`.
Python dictionaries preserve insertion order, and assigning to an existing
key updates the value in place. -/

/-- Dictionary lookup `k in d` / `d[k]`. -/
def dictGet? (d : List (Nat × α)) (k : Nat) : Option α :=
  (d.find? (fun p => p.1 == k)).map Prod.snd

/-- Dictionary assignment `d[k] = v` (in-place update preserves position;
a new key is appended). -/
def dictSet : List (Nat × α) → Nat → α → List (Nat × α)
  | [], k, v => [(k, v)]
  | (q, w) :: rest, k, v =>
      if q = k then (q, v) :: rest else (q, w) :: dictSet rest k v

/-- The `rows` dictionary built by the first loop of
`_extract_metrics_from_table`. -/
def buildRows (cells : List TableCell) : List (Nat × List (Nat × String)) :=
  cells.foldl
    (fun rows c =>
      dictSet rows c.row_index
        (dictSet ((dictGet? rows c.row_index).getD []) c.column_index c.content))
    []

/-- Insertion into an ascending list, for `sorted(rows.keys())` (keys are
distinct, so stability is irrelevant). -/
def insertAsc (x : Nat) : List Nat → List Nat
  | [] => [x]
  | y :: ys => if x ≤ y then x :: y :: ys else y :: insertAsc x ys

/-- Python `sorted` on a list of keys. -/
def sortAsc (l : List Nat) : List Nat :=
  l.foldr insertAsc []

/-- Python `max(row_data.keys())`; the source only evaluates it while
iterating a non-empty dictionary, where folding from `0` over `Nat` keys
computes the maximum. -/
def maxKeys (d : List (Nat × α)) : Nat :=
  (d.map Prod.fst).foldl Nat.max 0

/-- One step of the adjacent-cell scan: `if adj_col in row_data`, parse the
cell content. -/
def parseCellAt (row_data : List (Nat × String)) (adj : Nat) : Option (ℚ × Option String) :=
  match dictGet? row_data adj with
  | some s => _parse_value s
  | none => none

/-! ### The three extraction passes -/

/-- Embedding of `ESGDataProcessor._extract_metrics_from_table`: group cells into rows,
skip row 0, and for each categorized cell scan
`range(col_idx + 1, max(row_data.keys()) + 1)` for the first cell whose
content parses; emit a metric with confidence 0.8 tagged with the table
index. -/
def _extract_metrics_from_table (table : ClassifierTable) (table_idx : Nat) : List ESGMetric :=
  (sortAsc ((buildRows table.cells).map Prod.fst)).flatMap (fun row_idx =>
    if row_idx = 0 then []
    else
      ((dictGet? (buildRows table.cells) row_idx).getD []).flatMap (fun cv =>
        match _categorize_text cv.2 with
        | none => []
        | some category =>
            match (List.range' (cv.1 + 1) (maxKeys ((dictGet? (buildRows table.cells) row_idx).getD []) - cv.1)).findSome?
                (parseCellAt ((dictGet? (buildRows table.cells) row_idx).getD [])) with
            | none => []
            | some (metric_value, unit) =>
                [{ category := category, metric_name := cv.2, value := metric_value,
                   unit := unit, source_table := some table_idx,
                   confidence := Rat.divInt 4 5 }]))

/-- Embedding of `ESGDataProcessor._process_key_value_pair`. -/
def _process_key_value_pair (kvp : ClassifierKVP) : Option ESGMetric :=
  match _categorize_text (kvp.key.getD "") with
  | none => none
  | some category =>
      match _parse_value (kvp.value.getD "") with
      | none => none
      | some (metric_value, unit) =>
          some { category := category, metric_name := kvp.key.getD "",
                 value := metric_value, unit := unit,
                 confidence := kvp.confidence.getD (Rat.divInt 1 2) }

/-- One `foldr` step of `re.split` on `[.!?]+`: the flag records whether the
character to the right was a terminator, so that a run of terminators
produces a single split. -/
def splitStep (c : Char) (acc : List (List Char) × Bool) : List (List Char) × Bool :=
  if isTermChar c then
    (if acc.2 then acc.1 else [] :: acc.1, true)
  else
    ((match acc.1 with
      | s :: ss => (c :: s) :: ss
      | [] => [[c]]), false)

/-- Embedding of `re.split` on the pattern `[.!?]+`: leftmost-longest runs of sentence
terminators split the text, with empty segments kept at the boundaries. -/
def splitSentences (cs : List Char) : List (List Char) :=
  (cs.foldr splitStep ([[]], false)).1

/-- The part of `([^:]+):\s*([0-9,.\s]+)([a-zA-Z%]*)` after the colon, with
regex backtracking semantics: `\s*` is greedy but gives back one character
when `[0-9,.\s]+` would otherwise have nothing to match (whitespace is in
both classes), and `[a-zA-Z%]*` may be empty. Returns groups 2 and 3. -/
def suffixGroups (r : List Char) : Option (List Char × List Char) :=
  match r.drop (r.takeWhile isSpaceChar).length with
  | c :: rest =>
      if c.isDigit || c = ',' || c = '.' then
        some ((c :: rest).takeWhile isValClass,
          (((c :: rest).drop ((c :: rest).takeWhile isValClass).length).takeWhile isUnitChar))
      else
        match (r.takeWhile isSpaceChar).getLast? with
        | none => none
        | some w => some ([w], (c :: rest).takeWhile isUnitChar)
  | [] =>
      match (r.takeWhile isSpaceChar).getLast? with
      | none => none
      | some w => some ([w], [])

/-- Anchored match of `([^:]+):\s*([0-9,.\s]+)([a-zA-Z%]*)` at the start of
`s`: group 1 is the maximal non-colon run, which must be non-empty and be
followed by a colon (no shorter run can work, since a colon cannot occur
inside group 1). -/
def matchAt (s : List Char) : Option (List Char × List Char × List Char) :=
  if s.takeWhile (fun x => x ≠ ':') = [] then none
  else
    match s.drop (s.takeWhile (fun x => x ≠ ':')).length with
    | ':' :: r =>
        match suffixGroups r with
        | some (g2, g3) => some (s.takeWhile (fun x => x ≠ ':'), g2, g3)
        | none => none
    | _ => none

/-- Search (`re.search`) for the free-text pattern: try the anchored match at each
start position from the left. -/
def searchKV : List Char → Option (List Char × List Char × List Char)
  | [] => none
  | c :: rest =>
      match matchAt (c :: rest) with
      | some g => some g
      | none => searchKV rest

/-- Embedding of `ESGDataProcessor._analyze_content`: split into sentences, search each
for the `label: number unit` shape, categorize the label, parse the number
with commas removed (`float` failure silently skips), and emit metrics with
confidence 0.6. -/
def _analyze_content (content : String) : List ESGMetric :=
  (splitSentences content.data).flatMap (fun sentence =>
    match searchKV sentence with
    | none => []
    | some (g1, g2, g3) =>
        match _categorize_text (String.mk (pystrip g1)) with
        | none => []
        | some category =>
            match pyFloat? ((pystrip g2).filter (fun c => c ≠ ',')) with
            | none => []
            | some value =>
                [{ category := category, metric_name := String.mk (pystrip g1),
                   value := value, unit := toUnit (pystrip g3),
                   confidence := Rat.divInt 3 5 }])

/-- Embedding of `ESGDataProcessor._calculate_summary`. The source increments
`metrics_by_category[metric.category]`, which presupposes one of the three
category names (guaranteed by `_categorize_text`); the embedding counts by
string equality. -/
def _calculate_summary (metrics : List ESGMetric) : ESGSummary :=
  { total_metrics := metrics.length,
    metrics_by_category :=
      { environmental := (metrics.filter (fun m => m.category == "environmental")).length,
        social := (metrics.filter (fun m => m.category == "social")).length,
        governance := (metrics.filter (fun m => m.category == "governance")).length },
    average_confidence :=
      if metrics = [] then 0
      else (metrics.map ESGMetric.confidence).sum / (metrics.length : ℚ) }

/-- Embedding of `ESGDataProcessor.process_esg_data`. The report timestamp
(`datetime.utcnow().isoformat()`) is an environmental input, passed here as
the `extraction_date` argument. -/
def process_esg_data (extraction_date : String) (extracted_data : ExtractedRecord) : ESGReport :=
  { filename := extracted_data.filename.getD "",
    extraction_date := extraction_date,
    metrics :=
      (match extracted_data.tables with
       | none => []
       | some ts => ts.enum.flatMap (fun it => _extract_metrics_from_table it.2 it.1)) ++
      (match extracted_data.key_value_pairs with
       | none => []
       | some ks => ks.filterMap _process_key_value_pair) ++
      (match extracted_data.content with
       | none => []
       | some c => _analyze_content c),
    summary := some (_calculate_summary
      ((match extracted_data.tables with
        | none => []
        | some ts => ts.enum.flatMap (fun it => _extract_metrics_from_table it.2 it.1)) ++
       (match extracted_data.key_value_pairs with
        | none => []
        | some ks => ks.filterMap _process_key_value_pair) ++
       (match extracted_data.content with
        | none => []
        | some c => _analyze_content c))) }

/-! ### Extraction adapter (`src/utils/document_analyzer.py`)

The external service result is accessed defensively: every attribute read
goes through `hasattr`/`getattr` with a default, so each attribute is
modelled as an `Option` (`none` = attribute absent). A key-value pair
object additionally distinguishes an attribute that is present but `None`
(falsy) from one holding an element with `content`, hence the nested
`Option (Option String)`. A `None` entry in the key-value list itself is
modelled by wrapping list elements in `Option`. -/

structure RawLine where
  content : Option String
  polygon : Option (List ℚ)
  deriving Repr, DecidableEq

structure RawPage where
  page_number : Option Nat
  width : Option ℚ
  height : Option ℚ
  unit : Option String
  lines : Option (List RawLine)
  deriving Repr, DecidableEq

structure RawCell where
  row_index : Nat
  column_index : Nat
  content : Option String
  row_span : Option Nat
  column_span : Option Nat
  deriving Repr, DecidableEq

structure RawTable where
  row_count : Option Nat
  column_count : Option Nat
  cells : Option (List RawCell)
  deriving Repr, DecidableEq

/-- A key-value pair of the external result. `key`/`value`: outer `none` =
attribute absent; `some none` = attribute present but `None`; `some (some s)`
= element whose `content` is `s`. `confidence`: `none` = attribute absent
(`getattr` default 0.0). -/
structure RawKVP where
  key : Option (Option String)
  value : Option (Option String)
  confidence : Option ℚ
  deriving Repr, DecidableEq

/-- The external analysis result as read by `_structure_results`. -/
structure RawResult where
  content : Option String := none
  pages : Option (List RawPage) := none
  tables : Option (List RawTable) := none
  key_value_pairs : Option (List (Option RawKVP)) := none
  deriving Repr, DecidableEq

structure LineData where
  content : String
  polygon : List ℚ
  deriving Repr, DecidableEq

structure PageData where
  page_number : Nat
  width : ℚ
  height : ℚ
  unit : String
  lines : List LineData
  deriving Repr, DecidableEq

structure CellData where
  row_index : Nat
  column_index : Nat
  content : String
  row_span : Nat
  column_span : Nat
  is_header : Bool
  deriving Repr, DecidableEq

structure TableData where
  table_id : Nat
  row_count : Nat
  column_count : Nat
  cells : List CellData
  headers : List String
  deriving Repr, DecidableEq

/-- A normalized key-value pair as written by `_structure_results`. -/
structure StructKVP where
  key : String
  value : String
  confidence : ℚ
  deriving Repr, DecidableEq

/-- The `metadata` dictionary of the structured data.
`average_confidence` is only assigned when `confidence_scores` is
non-empty; `none` models the key being absent. -/
structure StructMetadata where
  page_count : Nat
  table_count : Nat
  confidence_scores : List ℚ
  average_confidence : Option ℚ := none
  deriving Repr, DecidableEq

/-- The structured record returned by `_structure_results`.
`analysis_timestamp` (`time.time()`) is a wall-clock input and is omitted
from the pure model. -/
structure StructuredData where
  filename : String
  pages : List PageData
  tables : List TableData
  key_value_pairs : List StructKVP
  content : String
  metadata : StructMetadata
  deriving Repr, DecidableEq

/-- Embedding of `DocumentAnalyzerImproved._is_valid_kvp`: a falsy pair, a pair missing
the `key` or `value` attribute, or a pair whose confidence (default 0.0) is
below 0.5 is invalid. -/
def _is_valid_kvp : Option RawKVP → Bool
  | none => false
  | some kvp =>
      if kvp.key.isNone || kvp.value.isNone then false
      else if kvp.confidence.getD 0 < 1/2 then false
      else true

/-- The `kvp_data` dictionary built for a retained pair:
`kvp.key.content if kvp.key else ""`, likewise for the value, and
`getattr` of `confidence` with default 0.0. -/
def kvpOutput : Option RawKVP → StructKVP
  | none => { key := "", value := "", confidence := 0 }
  | some kvp =>
      { key := (kvp.key.getD none).getD "",
        value := (kvp.value.getD none).getD "",
        confidence := kvp.confidence.getD 0 }

/-- Embedding of `DocumentAnalyzerImproved._extract_page_data`; lines without a
`content` attribute are dropped by the comprehension filter. -/
def _extract_page_data (page : RawPage) : PageData :=
  { page_number := page.page_number.getD 0,
    width := page.width.getD 0,
    height := page.height.getD 0,
    unit := page.unit.getD "pixel",
    lines := (page.lines.getD []).filterMap (fun line =>
      match line.content with
      | some c => some { content := c, polygon := line.polygon.getD [] }
      | none => none) }

/-- Non-strict lexicographic comparison on (row, column), the key order of
`sorted(table.cells, key=lambda c: (c.row_index, c.column_index))`. -/
def cellLe (a b : RawCell) : Bool :=
  a.row_index < b.row_index || (a.row_index = b.row_index && a.column_index ≤ b.column_index)

/-- Insertion for the stable sort: folding from the right, each cell is
placed before the first already-placed cell it compares `cellLe` to, so
cells with equal (row, column) keys stay in input order, matching the
stability guarantee of Python `sorted`. -/
def insertCell (x : RawCell) : List RawCell → List RawCell
  | [] => [x]
  | y :: ys => if cellLe x y then x :: y :: ys else y :: insertCell x ys

def sortCells (l : List RawCell) : List RawCell :=
  l.foldr insertCell []

/-- Normalization of one raw cell: content is stripped when truthy,
`row_index == 0` flags a header. -/
def cellOutput (c : RawCell) : CellData :=
  { row_index := c.row_index,
    column_index := c.column_index,
    content :=
      match c.content with
      | some s => if s.data = [] then "" else String.mk (pystrip s.data)
      | none => "",
    row_span := c.row_span.getD 1,
    column_span := c.column_span.getD 1,
    is_header := c.row_index == 0 }

/-- Embedding of `DocumentAnalyzerImproved._extract_table_data`: sort cells by position,
normalize each, and collect header-row contents. -/
def _extract_table_data (table : RawTable) (table_idx : Nat) : TableData :=
  { table_id := table_idx,
    row_count := table.row_count.getD 0,
    column_count := table.column_count.getD 0,
    cells := (sortCells (table.cells.getD [])).map cellOutput,
    headers := ((sortCells (table.cells.getD [])).map cellOutput).filterMap (fun cd =>
      if cd.is_header then some cd.content else none) }

/-- Embedding of `DocumentAnalyzerImproved._structure_results`. Tables whose normalized
cell list is empty are dropped; key-value pairs pass through
`_is_valid_kvp`, and their confidences populate `confidence_scores`, whose
mean is written to `average_confidence` only when the list is non-empty.
The per-item `try/except` blocks of the source catch attribute errors that
the total `Option`-field model cannot raise. -/
def _structure_results (result : RawResult) (filename : String) : StructuredData :=
  { filename := filename,
    content := result.content.getD "",
    pages := (result.pages.getD []).map _extract_page_data,
    tables := (result.tables.getD []).enum.filterMap (fun it =>
      if (_extract_table_data it.2 it.1).cells = [] then none
      else some (_extract_table_data it.2 it.1)),
    key_value_pairs := (result.key_value_pairs.getD []).filterMap (fun okvp =>
      if _is_valid_kvp okvp then some (kvpOutput okvp) else none),
    metadata :=
      { page_count := (result.pages.getD []).length,
        table_count := (result.tables.getD []).length,
        confidence_scores :=
          ((result.key_value_pairs.getD []).filterMap (fun okvp =>
            if _is_valid_kvp okvp then some (kvpOutput okvp) else none)).map StructKVP.confidence,
        average_confidence :=
          if ((result.key_value_pairs.getD []).filterMap (fun okvp =>
              if _is_valid_kvp okvp then some (kvpOutput okvp) else none)) = [] then none
          else some
            ((((result.key_value_pairs.getD []).filterMap (fun okvp =>
                if _is_valid_kvp okvp then some (kvpOutput okvp) else none)).map StructKVP.confidence).sum /
             ((((result.key_value_pairs.getD []).filterMap (fun okvp =>
                if _is_valid_kvp okvp then some (kvpOutput okvp) else none)).map StructKVP.confidence).length : ℚ)) } }

/-- Retention condition transcribed from the specification: a pair is kept
exactly when both its key and its value are present and its confidence is
at least 0.5. (Spec-side definition, for comparison with the code-side
`_is_valid_kvp`.) -/
def specKVPretained : Option RawKVP → Bool
  | none => false
  | some kvp => kvp.key.isSome && kvp.value.isSome && decide ((1 : ℚ)/2 ≤ kvp.confidence.getD 0)

/-! ### Validation and retry (`validate_file`, `retry_on_exception`,
`analyze_excel`) -/

/-- The two `ValueError` messages of `validate_file` and a service-side
failure, as a structured error kind. The size error carries the computed
size in MB and the configured maximum it cites; the extension error carries
the offending extension. -/
inductive AnalyzeError where
  | validationSizeExceeded (size_mb : ℚ) (max_mb : Nat)
  | validationInvalidExtension (ext : String)
  | serviceError (msg : String)
  deriving Repr, DecidableEq

/-- Which errors are `ValueError`s raised by `validate_file` (surfaced as
Validation Error by the function app). -/
def AnalyzeError.isValidation : AnalyzeError → Bool
  | .validationSizeExceeded _ _ => true
  | .validationInvalidExtension _ => true
  | .serviceError _ => false

/-- The constant `DocumentAnalyzerImproved.MAX_FILE_SIZE_MB`. -/
def MAX_FILE_SIZE_MB : Nat := 50

/-- Index of the last character satisfying `p`, if any. -/
def lastIdx (p : Char → Bool) (cs : List Char) : Option Nat :=
  (cs.reverse.findIdx? p).map (fun i => cs.length - 1 - i)

/-- Embedding of `os.path.splitext(filename)[1]` (POSIX): the extension starts at the
last period, provided it lies after the last path separator and some
non-period character precedes it within the basename. -/
def splitextExt (filename : String) : String :=
  match lastIdx (fun c => c = '.') filename.data with
  | none => ""
  | some dotIdx =>
      match lastIdx (fun c => c = '/') filename.data with
      | some sepIdx =>
          if sepIdx < dotIdx ∧
              ((filename.data.drop (sepIdx + 1)).take (dotIdx - (sepIdx + 1))).any (fun c => c ≠ '.') then
            String.mk (filename.data.drop dotIdx)
          else ""
      | none =>
          if (filename.data.take dotIdx).any (fun c => c ≠ '.') then
            String.mk (filename.data.drop dotIdx)
          else ""

/-- Embedding of `DocumentAnalyzerImproved.validate_file`: the size in MB
(`len(content) / (1024 * 1024)`, exact on `ℚ`) must not exceed
`MAX_FILE_SIZE_MB`, and the lower-cased extension must be one of `.xlsx`,
`.xls`, `.xlsm`. Only the byte count of the content is consulted, so the
model takes the length directly. -/
def validate_file (contentLength : Nat) (filename : String) : Except AnalyzeError Unit :=
  if Rat.divInt contentLength (1024 * 1024) > (MAX_FILE_SIZE_MB : ℚ) then
    .error (.validationSizeExceeded (Rat.divInt contentLength (1024 * 1024)) MAX_FILE_SIZE_MB)
  else if (String.mk (lowerChars (splitextExt filename).data)) ∈ [".xlsx", ".xls", ".xlsm"] then
    .ok ()
  else .error (.validationInvalidExtension (String.mk (lowerChars (splitextExt filename).data)))

/-- Observable trace of one decorated call: the propagated outcome (`none`
only in the vacuous `max_retries = 0` case, where the wrapper returns
`None`), the number of attempts executed, the `time.sleep` durations in
order, and how many attempts reached the external service call. -/
structure RetryRun (A : Type) where
  result : Option (Except AnalyzeError A)
  attempts : Nat
  sleeps : List ℚ
  serviceCalls : Nat
  deriving Repr

/-- The loop of `retry_on_exception`: `body n` is the outcome of attempt
`n` (0-based) paired with whether that attempt reached the service call; on
an exception the last attempt re-raises, earlier ones sleep `retry_delay`
and multiply it by `backoff`. -/
def retryAux (body : Nat → Except AnalyzeError A × Bool) (backoff : ℚ) :
    Nat → Nat → ℚ → RetryRun A
  | 0, _, _ => { result := none, attempts := 0, sleeps := [], serviceCalls := 0 }
  | remaining + 1, attempt, retry_delay =>
      match body attempt with
      | (.ok a, svc) =>
          { result := some (.ok a), attempts := 1, sleeps := [],
            serviceCalls := if svc then 1 else 0 }
      | (.error e, svc) =>
          if remaining = 0 then
            { result := some (.error e), attempts := 1, sleeps := [],
              serviceCalls := if svc then 1 else 0 }
          else
            { result := (retryAux body backoff remaining (attempt + 1) (retry_delay * backoff)).result,
              attempts := (retryAux body backoff remaining (attempt + 1) (retry_delay * backoff)).attempts + 1,
              sleeps := retry_delay :: (retryAux body backoff remaining (attempt + 1) (retry_delay * backoff)).sleeps,
              serviceCalls := (if svc then 1 else 0) +
                (retryAux body backoff remaining (attempt + 1) (retry_delay * backoff)).serviceCalls }

/-- The decorator `retry_on_exception(max_retries, delay, backoff)` applied to a body. -/
def retry_on_exception (max_retries : Nat) (delay backoff : ℚ)
    (body : Nat → Except AnalyzeError A × Bool) : RetryRun A :=
  retryAux body backoff max_retries 0 delay

/-- Embedding of `DocumentAnalyzerImproved.analyze_excel`, decorated with
`@retry_on_exception(max_retries=3, delay=2.0)` (backoff default 2.0). Each
attempt first runs `validate_file` — a `ValueError` there is an exception
inside the decorated body — and only on success reaches the external call,
modelled by `svc : Nat → Except AnalyzeError A` giving the outcome of the
service call on each attempt. -/
def analyze_excel_run (svc : Nat → Except AnalyzeError A)
    (contentLength : Nat) (filename : String) : RetryRun A :=
  retry_on_exception 3 2 2 (fun attempt =>
    match validate_file contentLength filename with
    | .error e => (.error e, false)
    | .ok _ => (svc attempt, true))

/-! ### Concrete inputs used by the claim theorems and witnesses -/

/-- The two-row table of the table-pass example: row 0 is a header row, row
1 holds `["carbon emissions", "45.2", "tons"]`. -/
def c1Table : ClassifierTable :=
  ⟨[⟨0, 0, "Metric"⟩, ⟨0, 1, "Value"⟩, ⟨0, 2, "Unit"⟩,
    ⟨1, 0, "carbon emissions"⟩, ⟨1, 1, "45.2"⟩, ⟨1, 2, "tons"⟩]⟩

/-- The metric the table pass actually emits for `c1Table`: the rightward
scan stops at the first parseable cell, `"45.2"`, whose parse carries no
unit token, so `unit` is `none` — the `"tons"` cell is never consulted. -/
def c1Metric : ESGMetric :=
  { category := "environmental", metric_name := "carbon emissions",
    value := Rat.divInt 452 10, unit := none, source_table := some 0,
    confidence := Rat.divInt 4 5 }

/-- The metric the free-text pass emits for the sentence
`"Water usage: 3200 liters."`. -/
def waterMetric : ESGMetric :=
  { category := "environmental", metric_name := "Water usage", value := 3200,
    unit := some "liters", confidence := Rat.divInt 3 5 }

/-- A record whose only populated field is the free-text content. -/
def waterRecord : ExtractedRecord :=
  { content := some "Water usage: 3200 liters." }

/-! ### Helper lemmas -/

/-- Every `(category, keyword)` pair of the static table is non-empty and
categorizes to its own category (no keyword of a later category matches an
pattern of an earlier category as a whole word). -/
theorem keywordPairs_check :
    keywordPairs.all (fun p => !(p.2.data.isEmpty) && (categorizeChars p.2.data == some p.1)) = true := by
  decide

/-- Flattened membership for the keyword table. -/
theorem mem_keywordPairs {cat : String} {kws : List String} {kw : String}
    (h1 : (cat, kws) ∈ ESG_KEYWORDS) (h2 : kw ∈ kws) : (cat, kw) ∈ keywordPairs :=
  List.mem_flatMap.mpr ⟨(cat, kws), h1, List.mem_map.mpr ⟨kw, h2, rfl⟩⟩

/-- A category returned by `categorizeChars` is one of the three fixed
names. -/
theorem categorizeChars_mem {cs : List Char} {c : String}
    (h : categorizeChars cs = some c) : c ∈ ["environmental", "social", "governance"] := by
  unfold categorizeChars at h
  obtain ⟨p, hp, hfp⟩ := List.exists_of_findSome?_eq_some h
  have hc : p.1 = c := by
    by_cases hb : p.2.any (fun kw => wholeWord kw.data cs) = true
    · rw [if_pos hb] at hfp
      exact Option.some.inj hfp
    · rw [if_neg hb] at hfp
      exact absurd hfp (by simp)
  simp only [ESG_KEYWORDS, List.mem_cons, List.not_mem_nil, or_false] at hp
  rcases hp with h1 | h1 | h1 <;> rw [← hc, h1] <;> simp

/-- A category returned by `_categorize_text` is one of the three fixed
names. -/
theorem categorize_text_mem {s : String} {c : String}
    (h : _categorize_text s = some c) : c ∈ ["environmental", "social", "governance"] := by
  unfold _categorize_text at h
  split at h
  · exact absurd h (by simp)
  · exact categorizeChars_mem h

/-- Fields of any metric emitted by the table pass. -/
theorem mem_table_pass {table : ClassifierTable} {i : Nat} {m : ESGMetric}
    (h : m ∈ _extract_metrics_from_table table i) :
    _categorize_text m.metric_name = some m.category ∧
    (∃ s, _parse_value s = some (m.value, m.unit)) ∧
    m.year = none ∧ m.source_page = none ∧ m.source_table = some i ∧
    m.confidence = Rat.divInt 4 5 := by
  unfold _extract_metrics_from_table at h
  rw [List.mem_flatMap] at h
  obtain ⟨row_idx, _, h⟩ := h
  split at h
  · exact absurd h (by simp)
  · rw [List.mem_flatMap] at h
    obtain ⟨cv, _, h⟩ := h
    split at h
    · exact absurd h (by simp)
    · rename_i category hcat
      split at h
      · exact absurd h (by simp)
      · rename_i pr hpr
        rw [List.mem_singleton] at h
        obtain ⟨adj, _, hadj⟩ := List.exists_of_findSome?_eq_some hpr
        unfold parseCellAt at hadj
        subst h
        refine ⟨hcat, ?_, rfl, rfl, rfl, rfl⟩
        split at hadj
        · exact ⟨_, hadj⟩
        · exact absurd hadj (by simp)

/-- Fields of any metric emitted by the key-value pass. -/
theorem kvp_pass_fields {kvp : ClassifierKVP} {m : ESGMetric}
    (h : _process_key_value_pair kvp = some m) :
    _categorize_text m.metric_name = some m.category ∧
    (∃ s, _parse_value s = some (m.value, m.unit)) ∧
    m.year = none ∧ m.source_table = none ∧ m.source_page = none ∧
    m.confidence = kvp.confidence.getD (Rat.divInt 1 2) := by
  unfold _process_key_value_pair at h
  split at h
  · exact absurd h (by simp)
  · rename_i category hcat
    split at h
    · exact absurd h (by simp)
    · rename_i pr hpr
      have hm := Option.some.inj h
      subst hm
      exact ⟨hcat, ⟨_, hpr⟩, rfl, rfl, rfl, rfl⟩

/-- Fields of any metric emitted by the free-text pass. -/
theorem mem_analyze_content {content : String} {m : ESGMetric}
    (h : m ∈ _analyze_content content) :
    _categorize_text m.metric_name = some m.category ∧
    (∃ cs, pyFloat? cs = some m.value) ∧
    m.year = none ∧ m.source_table = none ∧ m.source_page = none ∧
    m.confidence = Rat.divInt 3 5 := by
  unfold _analyze_content at h
  rw [List.mem_flatMap] at h
  obtain ⟨sentence, _, h⟩ := h
  split at h
  · exact absurd h (by simp)
  · split at h
    · exact absurd h (by simp)
    · rename_i category hcat
      split at h
      · exact absurd h (by simp)
      · rename_i v hv
        rw [List.mem_singleton] at h
        subst h
        exact ⟨hcat, ⟨_, hv⟩, rfl, rfl, rfl, rfl⟩

/-! ### Claim theorems -/

/-- C4: for every `(category, keyword)` pair of the three fixed keyword
lists, `_categorize_text` applied to any case variant of that exact keyword
(any string whose lower-casing is the keyword) returns the category of
that keyword; and `_categorize_text` applied to a string in which no keyword
occurs as a whole word (so in particular one where keywords occur only as
proper substrings of larger words) returns `none`. -/
theorem c4_keyword_word_boundary :
    (∀ p ∈ keywordPairs, ∀ s : String,
        lowerChars s.data = p.2.data → _categorize_text s = some p.1) ∧
    (∀ s : String, (∀ p ∈ keywordPairs, wholeWord p.2.data (lowerChars s.data) = false) →
        _categorize_text s = none) := by
  constructor
  · intro p hp s hs
    have hall := List.all_eq_true.mp keywordPairs_check p hp
    rw [Bool.and_eq_true] at hall
    have hkw : categorizeChars p.2.data = some p.1 := by
      have := hall.2
      rwa [beq_iff_eq] at this
    have hne : p.2.data ≠ [] := by
      intro hnil
      have := hall.1
      rw [hnil] at this
      simp [List.isEmpty] at this
    unfold _categorize_text
    split
    · rename_i hsd
      rw [hsd] at hs
      exact absurd hs.symm hne
    · rw [hs, hkw]
  · intro s hws
    unfold _categorize_text
    split
    · rfl
    · have hfalse : ∀ kws : List String, (∀ kw ∈ kws, ("x", kw) ∈ keywordPairs → True) → True := fun _ _ => trivial
      have he : environmentalKeywords.any (fun kw => wholeWord kw.data (lowerChars s.data)) = false := by
        rw [List.any_eq_false]
        intro kw hkw
        simp only [Bool.not_eq_true]
        exact hws ("environmental", kw) (mem_keywordPairs (by simp [ESG_KEYWORDS]) hkw)
      have hso : socialKeywords.any (fun kw => wholeWord kw.data (lowerChars s.data)) = false := by
        rw [List.any_eq_false]
        intro kw hkw
        simp only [Bool.not_eq_true]
        exact hws ("social", kw) (mem_keywordPairs (by simp [ESG_KEYWORDS]) hkw)
      have hg : governanceKeywords.any (fun kw => wholeWord kw.data (lowerChars s.data)) = false := by
        rw [List.any_eq_false]
        intro kw hkw
        simp only [Bool.not_eq_true]
        exact hws ("governance", kw) (mem_keywordPairs (by simp [ESG_KEYWORDS]) hkw)
      simp [categorizeChars, ESG_KEYWORDS, List.findSome?, he, hso, hg]

/-- C4 witness: the environmental keyword `"carbon"` in upper case
categorizes as environmental, and `"scarbon"`, which contains `"carbon"`
only as a proper substring, categorizes to `none`. -/
theorem c4_witness :
    _categorize_text "CARBON" = some "environmental" ∧ _categorize_text "scarbon" = none :=
  ⟨c4_keyword_word_boundary.1 ("environmental", "carbon") (by decide) "CARBON" (by decide),
   c4_keyword_word_boundary.2 "scarbon" (by decide)⟩

/-- C5: the categories are tested in the fixed enumeration order
environmental, social, governance, and the first match wins: any string
matching at least one environmental keyword and at least one social
keyword is classified environmental. -/
theorem c5_enumeration_order (s : String)
    (henv : environmentalKeywords.any (fun kw => wholeWord kw.data (lowerChars s.data)) = true)
    (_hsoc : socialKeywords.any (fun kw => wholeWord kw.data (lowerChars s.data)) = true) :
    _categorize_text s = some "environmental" := by
  have hne : s.data ≠ [] := by
    intro hnil
    rw [hnil] at henv
    exact absurd henv (by decide)
  unfold _categorize_text
  rw [if_neg hne]
  simp [categorizeChars, ESG_KEYWORDS, List.findSome?, henv]

/-- C5 witness: `"carbon employee"` matches the environmental keyword
`"carbon"` and the social keyword `"employee"`, and is classified
environmental. -/
theorem c5_witness : _categorize_text "carbon employee" = some "environmental" :=
  c5_enumeration_order "carbon employee" (by decide) (by decide)

set_option maxRecDepth 40000 in
/-- C6: `_parse_value` returns `none` whenever the leading `[0-9.]` token
of the trimmed, comma-stripped input does not parse as a float (including
the no-token case), and on the three reference inputs it behaves as
specified: `"1,234.5 MWh"` parses to `(1234.5, "MWh")`, `"abc"` and `""`
yield `none`. -/
theorem c6_parse_value :
    (∀ s : String,
        pyFloat? (((pystrip s.data).filter (fun c => c ≠ ',')).takeWhile isNumChar) = none →
        _parse_value s = none) ∧
    _parse_value "1,234.5 MWh" = some (1234.5, some "MWh") ∧
    _parse_value "abc" = none ∧
    _parse_value "" = none := by
  refine ⟨?_, ?_, by decide, by decide⟩
  case refine_2 =>
    have h : _parse_value "1,234.5 MWh" = some (Rat.divInt 12345 10, some "MWh") := by decide
    rw [h]
    simp only [Option.some.injEq, Prod.mk.injEq, and_true]
    norm_num [Rat.divInt_eq_div]
  intro s h
  unfold _parse_value
  split
  · rfl
  · unfold parseCleaned
    rw [h]

/-- C6 witness: the no-float condition holds for `"abc"`, and the theorem
instantiated there returns `none`. -/
theorem c6_witness : _parse_value "abc" = none :=
  c6_parse_value.1 "abc" (by decide)

set_option maxRecDepth 40000 in
set_option maxRecDepth 40000 in
/-- C7 counterexample: the claim quantifies over any content containing
the sentence `"Water usage: 3200 liters."`. The content
`"Some text Water usage: 3200 liters."` contains that sentence, yet the
free-text pass emits one metric whose metric name is
`"Some text Water usage"` — the label group of the search pattern absorbs
the preceding unpunctuated text — and no metric with metric name
`"Water usage"` (in particular not `waterMetric`, the metric the claim
describes) is yielded. -/
theorem c7_counterexample :
    _analyze_content "Some text Water usage: 3200 liters." =
      [{ category := "environmental", metric_name := "Some text Water usage",
         value := 3200, unit := some "liters", confidence := Rat.divInt 3 5 }] ∧
    waterMetric ∉ _analyze_content "Some text Water usage: 3200 liters." :=
  ⟨by decide, by decide⟩

set_option maxRecDepth 40000 in
/-- C7 amended: whenever the sentence body `"Water usage: 3200 liters"`
occurs as its own unit of the sentence split (rather than merely as a
substring of the content), the free-text pass yields the metric
`{environmental, "Water usage", 3200.0, "liters", confidence 0.6}`; the
content consisting of exactly `"Water usage: 3200 liters."` yields exactly
that one metric; and every metric the free-text pass ever emits carries
confidence 0.6. -/
theorem c7_free_text_pass_amended :
    (∀ content : String,
        "Water usage: 3200 liters".data ∈ splitSentences content.data →
        waterMetric ∈ _analyze_content content) ∧
    _analyze_content "Water usage: 3200 liters." = [waterMetric] ∧
    (∀ (content : String) (m : ESGMetric), m ∈ _analyze_content content → m.confidence = 0.6) := by
  refine ⟨?_, by decide, ?_⟩
  · intro content hmem
    unfold _analyze_content
    rw [List.mem_flatMap]
    exact ⟨"Water usage: 3200 liters".data, hmem, by decide⟩
  · intro content m hm
    rw [(mem_analyze_content hm).2.2.2.2.2]
    norm_num [Rat.divInt_eq_div]

set_option maxRecDepth 40000 in
/-- C7 witness: in the content `"Report!Water usage: 3200 liters."` the
water-usage sentence is its own split unit, so the free-text pass yields
the water-usage metric, and every free-text metric — that one applied at
its own emitting content — carries confidence 0.6. -/
theorem c7_witness :
    waterMetric ∈ _analyze_content "Report!Water usage: 3200 liters." ∧
    waterMetric.confidence = 0.6 :=
  ⟨c7_free_text_pass_amended.1 "Report!Water usage: 3200 liters." (by decide),
   c7_free_text_pass_amended.2.2 "Water usage: 3200 liters." waterMetric (by decide)⟩

/-- C9: classification is deterministic — the pure classifier yields the
same metric list on every run over the same record; the metric list does
not even depend on the extraction-date input, the only per-run
environmental value, so two invocations (at different wall-clock times)
produce identical metric lists. -/
theorem c9_deterministic (d₁ d₂ : String) (r : ExtractedRecord) :
    (process_esg_data d₁ r).metrics = (process_esg_data d₂ r).metrics := rfl

/-- C1 counterexample: on the two-row table with row 1 =
`["carbon emissions", "45.2", "tons"]`, the table pass does emit exactly
one metric with value 45.2 — but its unit is `none`, not `"tons"`: the
rightward scan stops at the first cell whose content parses (`"45.2"`),
and that parse finds no unit token; the `"tons"` cell is never consulted.
This refutes the claimed `unit = "tons"`. -/
theorem c1_counterexample :
    _extract_metrics_from_table c1Table 0 = [c1Metric] ∧
    c1Metric.value = 45.2 ∧ c1Metric.unit = none ∧ c1Metric.unit ≠ some "tons" := by
  refine ⟨by decide, ?_, rfl, by decide⟩
  show Rat.divInt 452 10 = 45.2
  norm_num [Rat.divInt_eq_div]

/-- C1 amended: the table pass on that table emits exactly one metric with
category environmental, metric name `"carbon emissions"`, value 45.2,
unit `none` (not `"tons"`), confidence 0.8 and source table 0. -/
theorem c1_table_pass_amended :
    _extract_metrics_from_table c1Table 0 = [c1Metric] ∧
    c1Metric.category = "environmental" ∧
    c1Metric.metric_name = "carbon emissions" ∧
    c1Metric.value = 45.2 ∧ c1Metric.unit = none ∧
    c1Metric.confidence = 0.8 ∧ c1Metric.source_table = some 0 := by
  refine ⟨by decide, rfl, rfl, ?_, rfl, ?_, rfl⟩
  · show Rat.divInt 452 10 = 45.2
    norm_num [Rat.divInt_eq_div]
  · show Rat.divInt 4 5 = 0.8
    norm_num [Rat.divInt_eq_div]

/-- C2: in `_structure_results`, a key-value pair is retained in
`key_value_pairs` exactly when both its `key` and `value` attributes are
present and its confidence (default 0.0) is at least 0.5
(`specKVPretained` transcribes the claim); and the metadata field
`average_confidence` equals the sum of the retained confidences divided by
their count, and is absent (`none`) exactly when no pair qualifies. -/
theorem c2_kvp_filtering (result : RawResult) (filename : String) :
    (_structure_results result filename).key_value_pairs =
      (result.key_value_pairs.getD []).filterMap (fun okvp =>
        if specKVPretained okvp then some (kvpOutput okvp) else none) ∧
    (_structure_results result filename).metadata.average_confidence =
      (if (_structure_results result filename).key_value_pairs = [] then none
       else some
         ((((_structure_results result filename).key_value_pairs).map StructKVP.confidence).sum /
          (((_structure_results result filename).key_value_pairs).length : ℚ))) := by
  have hpt : ∀ okvp : Option RawKVP, _is_valid_kvp okvp = specKVPretained okvp := by
    intro okvp
    match okvp with
    | none => rfl
    | some kvp =>
        simp only [_is_valid_kvp, specKVPretained]
        rcases kvp.key with _ | k <;> rcases kvp.value with _ | v <;>
          simp only [Option.isNone_none, Option.isNone_some, Option.isSome_none,
            Option.isSome_some, Bool.true_or, Bool.or_true, Bool.false_or,
            Bool.true_and, Bool.false_and, Bool.and_self] <;>
          try rfl
        by_cases hc : kvp.confidence.getD 0 < (2 : ℚ)⁻¹
        · simp [hc, not_le.mpr hc]
        · simp [hc, le_of_not_lt hc]
  constructor
  · simp only [_structure_results]
    exact List.filterMap_congr (fun x _ => by rw [hpt x])
  · simp only [_structure_results, List.length_map]

/-- C8: every metric in any report produced by the classifier has one of
the three ESG categories (the string produced by `_categorize_text` on its
metric name) and a numeric value obtained from a successful parse
(`_parse_value`, which also yields its unit, for the table and key-value
passes; the float parse for the free-text pass); candidates whose value
does not parse are dropped, so no partial metric is ever emitted. -/
theorem c8_metric_invariant (d : String) (r : ExtractedRecord) (m : ESGMetric)
    (hm : m ∈ (process_esg_data d r).metrics) :
    m.category ∈ ["environmental", "social", "governance"] ∧
    ((∃ s, _parse_value s = some (m.value, m.unit)) ∨
     (∃ cs, pyFloat? cs = some m.value)) := by
  simp only [process_esg_data] at hm
  rw [List.mem_append, List.mem_append] at hm
  rcases hm with (hm | hm) | hm
  · split at hm
    · exact absurd hm (by simp)
    · rw [List.mem_flatMap] at hm
      obtain ⟨it, _, hm⟩ := hm
      obtain ⟨hcat, hparse, _⟩ := mem_table_pass hm
      exact ⟨categorize_text_mem hcat, Or.inl hparse⟩
  · split at hm
    · exact absurd hm (by simp)
    · rw [List.mem_filterMap] at hm
      obtain ⟨kvp, _, hm⟩ := hm
      obtain ⟨hcat, hparse, _⟩ := kvp_pass_fields hm
      exact ⟨categorize_text_mem hcat, Or.inl hparse⟩
  · split at hm
    · exact absurd hm (by simp)
    · obtain ⟨hcat, hparse, _⟩ := mem_analyze_content hm
      exact ⟨categorize_text_mem hcat, Or.inr hparse⟩

/-- C8 witness: the water-usage metric, produced from a record holding only
free-text content, has a listed category and a parsed value. -/
theorem c8_witness :
    waterMetric.category ∈ ["environmental", "social", "governance"] ∧
    ((∃ s, _parse_value s = some (waterMetric.value, waterMetric.unit)) ∨
     (∃ cs, pyFloat? cs = some waterMetric.value)) :=
  c8_metric_invariant "" waterRecord waterMetric (by decide)

/-- C10: no pass ever populates `year` or `source_page` (they stay `none`
on every metric of every report), and the key-value and free-text passes
additionally leave `source_table` as `none` — only the table pass sets it. -/
theorem c10_unpopulated_fields :
    (∀ (d : String) (r : ExtractedRecord) (m : ESGMetric),
        m ∈ (process_esg_data d r).metrics → m.year = none ∧ m.source_page = none) ∧
    (∀ (kvp : ClassifierKVP) (m : ESGMetric),
        _process_key_value_pair kvp = some m → m.source_table = none) ∧
    (∀ (content : String) (m : ESGMetric),
        m ∈ _analyze_content content → m.source_table = none) := by
  refine ⟨?_, ?_, ?_⟩
  · intro d r m hm
    simp only [process_esg_data] at hm
    rw [List.mem_append, List.mem_append] at hm
    rcases hm with (hm | hm) | hm
    · split at hm
      · exact absurd hm (by simp)
      · rw [List.mem_flatMap] at hm
        obtain ⟨it, _, hm⟩ := hm
        obtain ⟨_, _, hy, hp, _⟩ := mem_table_pass hm
        exact ⟨hy, hp⟩
    · split at hm
      · exact absurd hm (by simp)
      · rw [List.mem_filterMap] at hm
        obtain ⟨kvp, _, hm⟩ := hm
        obtain ⟨_, _, hy, _, hp, _⟩ := kvp_pass_fields hm
        exact ⟨hy, hp⟩
    · split at hm
      · exact absurd hm (by simp)
      · obtain ⟨_, _, hy, _, hp, _⟩ := mem_analyze_content hm
        exact ⟨hy, hp⟩
  · intro kvp m hm
    exact (kvp_pass_fields hm).2.2.2.1
  · intro content m hm
    exact (mem_analyze_content hm).2.2.2.1

/-- C10 witness: the water-usage metric has no year, no source page, and —
being emitted by the free-text pass — no source table. -/
theorem c10_witness :
    (waterMetric.year = none ∧ waterMetric.source_page = none) ∧
    waterMetric.source_table = none :=
  ⟨c10_unpopulated_fields.1 "" waterRecord waterMetric (by decide),
   c10_unpopulated_fields.2.2 "Water usage: 3200 liters." waterMetric (by decide)⟩

/-- C3 counterexample: the retry decorator wraps the whole of
`analyze_excel`, including `validate_file`, so a validation failure is
retried exactly like a service failure. For a zero-byte file named
`"report.csv"` with a service stub that would succeed, the run still makes
3 attempts and sleeps twice (2s then 4s) although the external service is
never called (0 service calls, so no exception ever arose from the external
call) — refuting the claim that the operation retries only on exceptions
arising from the external service call. -/
theorem c3_counterexample :
    analyze_excel_run (A := Unit) (fun _ => Except.ok ()) 0 "report.csv" =
      { result := some (Except.error (AnalyzeError.validationInvalidExtension ".csv")),
        attempts := 3, sleeps := [2, 4], serviceCalls := 0 } ∧
    (analyze_excel_run (A := Unit) (fun _ => Except.ok ()) 0 "report.csv").sleeps ≠ [] :=
  ⟨by with_unfolding_all rfl, by with_unfolding_all decide⟩

/-- C3 amended: the decorated `analyze_excel` retries on any exception
raised inside it — validation errors included, since validation runs inside
the decorated body — making up to 3 attempts with backoff 2s then 4s, and
the exception of the final attempt propagates. In particular: (1) when
validation passes and every service call fails, the run makes 3 attempts,
each reaching the service, sleeps 2s then 4s, and propagates the final
service exception; (2) a file named `"report.csv"` of any size yields a
propagated `ValueError` from validation after 3 attempts, with the external
service never called; (3) a 60 MB `.xlsx` file yields the size
`ValueError` citing the configured 50 MB maximum, again with no service
call. -/
theorem c3_retry_and_validation :
    (∀ (contentLength : Nat) (fn : String) (msg : Nat → String),
        validate_file contentLength fn = Except.ok () →
        analyze_excel_run (A := Unit)
            (fun a => Except.error (AnalyzeError.serviceError (msg a))) contentLength fn =
          { result := some (Except.error (AnalyzeError.serviceError (msg 2))),
            attempts := 3, sleeps := [2, 4], serviceCalls := 3 }) ∧
    (∀ (contentLength : Nat) (svc : Nat → Except AnalyzeError Unit),
        (analyze_excel_run svc contentLength "report.csv").serviceCalls = 0 ∧
        (analyze_excel_run svc contentLength "report.csv").attempts = 3 ∧
        (analyze_excel_run svc contentLength "report.csv").sleeps = [2, 4] ∧
        ∃ e, (analyze_excel_run svc contentLength "report.csv").result =
            some (Except.error e) ∧ e.isValidation = true) ∧
    (∀ svc : Nat → Except AnalyzeError Unit,
        analyze_excel_run svc (60 * 1024 * 1024) "report.xlsx" =
          { result := some (Except.error
              (AnalyzeError.validationSizeExceeded 60 MAX_FILE_SIZE_MB)),
            attempts := 3, sleeps := [2, 4], serviceCalls := 0 }) := by
  refine ⟨?_, ?_, ?_⟩
  · intro contentLength fn msg hok
    have hb : (fun attempt =>
        match validate_file contentLength fn with
        | .error e => ((Except.error e : Except AnalyzeError Unit), false)
        | .ok _ => (Except.error (AnalyzeError.serviceError (msg attempt)), true)) =
        fun attempt => (Except.error (AnalyzeError.serviceError (msg attempt)), true) := by
      funext a
      rw [hok]
    unfold analyze_excel_run retry_on_exception
    rw [hb]
    simp [retryAux]
    norm_num
  · intro contentLength svc
    have hval : ∃ e, validate_file contentLength "report.csv" = .error e ∧
        e.isValidation = true := by
      unfold validate_file
      split
      · exact ⟨_, rfl, rfl⟩
      · rw [if_neg (by decide)]
        exact ⟨_, rfl, rfl⟩
    obtain ⟨e, he, hiv⟩ := hval
    have hb : (fun attempt =>
        match validate_file contentLength "report.csv" with
        | .error e => ((Except.error e : Except AnalyzeError Unit), false)
        | .ok _ => (svc attempt, true)) =
        fun _ => ((Except.error e : Except AnalyzeError Unit), false) := by
      funext a
      rw [he]
    have hrun : analyze_excel_run svc contentLength "report.csv" =
        { result := some (Except.error e), attempts := 3, sleeps := [2, 4],
          serviceCalls := 0 } := by
      unfold analyze_excel_run retry_on_exception
      rw [hb]
      simp [retryAux]
      norm_num
    rw [hrun]
    exact ⟨rfl, rfl, rfl, e, rfl, hiv⟩
  · intro svc
    have he : validate_file (60 * 1024 * 1024) "report.xlsx" =
        .error (AnalyzeError.validationSizeExceeded 60 MAX_FILE_SIZE_MB) := by
      with_unfolding_all rfl
    have hb : (fun attempt =>
        match validate_file (60 * 1024 * 1024) "report.xlsx" with
        | .error e => ((Except.error e : Except AnalyzeError Unit), false)
        | .ok _ => (svc attempt, true)) =
        fun _ => ((Except.error (AnalyzeError.validationSizeExceeded 60 MAX_FILE_SIZE_MB) :
          Except AnalyzeError Unit), false) := by
      funext a
      rw [he]
    unfold analyze_excel_run retry_on_exception
    rw [hb]
    simp [retryAux]
    norm_num

/-- C3 witness: a valid 100-byte `.xlsx` file with an always-failing
service stub is retried 3 times with sleeps 2s and 4s, each attempt calls
the service, and the final exception propagates. -/
theorem c3_witness :
    analyze_excel_run (A := Unit)
        (fun _ => Except.error (AnalyzeError.serviceError "boom")) 100 "a.xlsx" =
      { result := some (Except.error (AnalyzeError.serviceError "boom")),
        attempts := 3, sleeps := [2, 4], serviceCalls := 3 } :=
  c3_retry_and_validation.1 100 "a.xlsx" (fun _ => "boom") rfl

end NovataExcel
